import Mathlib

/-!
Verification of the Michigan-attractions ingestion pipeline
(`backend/scripts/fetch_data.py`).

The Python script is shallowly embedded below: pure functions become Lean
functions, the JSON store becomes an explicit `Store` value, network fetches
become oracle functions (attempt number to optional response), and `pandas`
data frames become lists of association rows.  Python floats are modelled as
rationals; the `hashlib.md5` hexdigest is modelled as a parameter
`md5 : String → String` (the spec relies only on the hash being a
deterministic, collision-free function of the hashed string, so theorems that
need collision-freedom take `Function.Injective md5` as a hypothesis).
Python string interpolation of a coordinate (`f"..._{lat}_{lon}"`) is
modelled by `coordRepr`, an injective decimal rendering whose characters are
digits, a sign and a decimal point — exactly the properties of `repr(float)`
that the identity function relies on (no underscore may occur in it).
-/

/-- Characters treated as whitespace by the model of Python `str.strip`. -/
def isPySpace (c : Char) : Bool :=
  c == ' ' || c == '\t' || c == '\n' || c == '\r'

/-- Model of Python `str.strip()` on the character list of a string. -/
def pyStrip (s : String) : String :=
  ⟨((s.data.dropWhile isPySpace).reverse.dropWhile isPySpace).reverse⟩

/-- Model of Python `str.lower()` (ASCII case folding). -/
def pyLower (s : String) : String :=
  ⟨s.data.map (fun c => if 'A' ≤ c && c ≤ 'Z' then Char.ofNat (c.toNat + 32) else c)⟩

/-- Model of Python dictionary lookup `d.get(k)` on an association list. -/
def dget {α : Type} (m : List (String × α)) (k : String) : Option α :=
  match m with
  | [] => none
  | (a, b) :: rest => if a = k then some b else dget rest k

/-- Boolean list containment used to model Python `pat in s` on strings:
`listIsPre pat l` holds when `pat` is an initial segment of `l`. -/
def listIsPre : List Char → List Char → Bool
  | [], _ => true
  | _ :: _, [] => false
  | a :: as, b :: bs => a == b && listIsPre as bs

/-- `listHasSub pat l` models Python substring containment `pat in l`. -/
def listHasSub (pat : List Char) : List Char → Bool
  | [] => listIsPre pat []
  | c :: rest => listIsPre pat (c :: rest) || listHasSub pat rest

/-- Decimal digit characters of a natural number (most significant first). -/
def natChars (n : ℕ) : List Char :=
  ((Nat.digits 10 n).map Nat.digitChar).reverse

/-- Decimal rendering of an integer: optional leading minus sign. -/
def intChars (n : ℤ) : List Char :=
  if n < 0 then '-' :: natChars n.natAbs else natChars n.natAbs

/-- Model of Python `repr` of a float coordinate, on the rational model of the
float: an injective rendering from digits, `'-'` and `'.'`.  Only these
properties of the concrete decimal text matter to the identity function. -/
def coordChars (q : ℚ) : List Char :=
  intChars q.num ++ '.' :: natChars q.den

/-- String form of `coordChars`. -/
def coordRepr (q : ℚ) : String :=
  ⟨coordChars q⟩

theorem digitChar_isDigit {d : ℕ} (h : d < 10) : (Nat.digitChar d).isDigit = true := by
  interval_cases d <;> decide

theorem digitChar_inj {d₁ d₂ : ℕ} (h₁ : d₁ < 10) (h₂ : d₂ < 10)
    (h : Nat.digitChar d₁ = Nat.digitChar d₂) : d₁ = d₂ := by
  interval_cases d₁ <;> interval_cases d₂ <;> revert h <;> decide

theorem map_digitChar_inj : ∀ (l₁ l₂ : List ℕ), (∀ d ∈ l₁, d < 10) → (∀ d ∈ l₂, d < 10) →
    l₁.map Nat.digitChar = l₂.map Nat.digitChar → l₁ = l₂ := by
  intro l₁
  induction l₁ with
  | nil => intro l₂ _ _ h; cases l₂ <;> simp_all
  | cons a as ih =>
    intro l₂ h₁ h₂ h
    cases l₂ with
    | nil => simp_all
    | cons b bs =>
      simp only [List.map_cons, List.cons.injEq] at h
      have ha : a = b := digitChar_inj (h₁ a (by simp)) (h₂ b (by simp)) h.1
      have hs : as = bs := ih bs (fun d hd => h₁ d (by simp [hd])) (fun d hd => h₂ d (by simp [hd])) h.2
      simp [ha, hs]

theorem natChars_digit {n : ℕ} {c : Char} (hc : c ∈ natChars n) : c.isDigit = true := by
  simp only [natChars, List.mem_reverse, List.mem_map] at hc
  obtain ⟨d, hd, rfl⟩ := hc
  exact digitChar_isDigit (Nat.digits_lt_base (by norm_num) hd)

theorem natChars_inj {a b : ℕ} (h : natChars a = natChars b) : a = b := by
  simp only [natChars] at h
  have h₁ := List.reverse_injective h
  have h₂ := map_digitChar_inj (Nat.digits 10 a) (Nat.digits 10 b)
    (fun d hd => Nat.digits_lt_base (by norm_num) hd)
    (fun d hd => Nat.digits_lt_base (by norm_num) hd) h₁
  have := congrArg (Nat.ofDigits 10) h₂
  simpa [Nat.ofDigits_digits] using this

theorem natChars_eq_nil_iff {n : ℕ} : natChars n = [] ↔ n = 0 := by
  simp [natChars, Nat.digits_eq_nil_iff_eq_zero]

theorem intChars_chars {n : ℤ} {c : Char} (hc : c ∈ intChars n) :
    c.isDigit = true ∨ c = '-' := by
  unfold intChars at hc
  split at hc
  · rcases List.mem_cons.mp hc with h | h
    · exact Or.inr h
    · exact Or.inl (natChars_digit h)
  · exact Or.inl (natChars_digit hc)

theorem intChars_inj {a b : ℤ} (h : intChars a = intChars b) : a = b := by
  unfold intChars at h
  split at h <;> split at h
  · rename_i ha hb
    simp only [List.cons.injEq, true_and] at h
    have := natChars_inj h
    omega
  · rename_i ha hb
    by_cases hz : b.natAbs = 0
    · rw [natChars_eq_nil_iff.mpr hz] at h; simp at h
    · have hne : natChars b.natAbs ≠ [] := fun hh => hz (natChars_eq_nil_iff.mp hh)
      cases hch : natChars b.natAbs with
      | nil => exact absurd hch hne
      | cons c cs =>
        rw [hch] at h
        have hcmem : c ∈ natChars b.natAbs := by rw [hch]; simp
        have := natChars_digit hcmem
        simp only [List.cons.injEq] at h
        rw [← h.1] at this
        simp [Char.isDigit] at this
  · rename_i ha hb
    by_cases hz : a.natAbs = 0
    · rw [natChars_eq_nil_iff.mpr hz] at h; simp at h
    · have hne : natChars a.natAbs ≠ [] := fun hh => hz (natChars_eq_nil_iff.mp hh)
      cases hch : natChars a.natAbs with
      | nil => exact absurd hch hne
      | cons c cs =>
        rw [hch] at h
        have hcmem : c ∈ natChars a.natAbs := by rw [hch]; simp
        have := natChars_digit hcmem
        simp only [List.cons.injEq] at h
        rw [h.1] at this
        simp [Char.isDigit] at this
  · rename_i ha hb
    have := natChars_inj h
    omega

theorem splitAtChar {c : Char} : ∀ {l₁ l₂ r₁ r₂ : List Char}, c ∉ l₁ → c ∉ l₂ →
    l₁ ++ c :: r₁ = l₂ ++ c :: r₂ → l₁ = l₂ ∧ r₁ = r₂ := by
  intro l₁
  induction l₁ with
  | nil =>
    intro l₂ r₁ r₂ _ h₂ h
    cases l₂ with
    | nil => simpa using h
    | cons b bs =>
      simp only [List.nil_append, List.cons_append, List.cons.injEq] at h
      exact absurd (h.1 ▸ List.mem_cons_self b bs) (h.1 ▸ h₂)
  | cons a as ih =>
    intro l₂ r₁ r₂ h₁ h₂ h
    cases l₂ with
    | nil =>
      simp only [List.cons_append, List.nil_append, List.cons.injEq] at h
      exact absurd (h.1 ▸ List.mem_cons_self a as) (fun hm => h₁ (h.1 ▸ hm))
    | cons b bs =>
      simp only [List.cons_append, List.cons.injEq] at h
      have := ih (fun hm => h₁ (List.mem_cons_of_mem a hm))
        (fun hm => h₂ (List.mem_cons_of_mem b hm)) h.2
      exact ⟨by simp [h.1, this.1], this.2⟩

theorem coordChars_no_underscore {q : ℚ} : '_' ∉ coordChars q := by
  intro h
  unfold coordChars at h
  rcases List.mem_append.mp h with h | h
  · rcases intChars_chars h with h | h <;> simp [Char.isDigit] at h
  · rcases List.mem_cons.mp h with h | h
    · cases h
    · have := natChars_digit h
      simp [Char.isDigit] at this

theorem coordChars_no_dot_int {n : ℤ} : '.' ∉ intChars n := by
  intro h
  rcases intChars_chars h with h | h <;> simp [Char.isDigit] at h

theorem coordChars_inj {a b : ℚ} (h : coordChars a = coordChars b) : a = b := by
  unfold coordChars at h
  obtain ⟨h₁, h₂⟩ := splitAtChar coordChars_no_dot_int coordChars_no_dot_int h
  exact Rat.ext (intChars_inj h₁) (natChars_inj h₂)

theorem coordRepr_inj {a b : ℚ} (h : coordRepr a = coordRepr b) : a = b :=
  coordChars_inj (congrArg String.data h)

/-! ## Category registry and classifier (`OSM_CATEGORY_MAP`, `LOOKUP`,
`detect_category` in `fetch_data.py`) -/

/-- `OSM_CATEGORY_MAP`: category to (key, value) tag pairs, in source order. -/
def OSM_CATEGORY_MAP : List (String × List (String × String)) :=
  [ ("Lighthouses", [("man_made", "lighthouse"), ("tourism", "lighthouse"),
      ("seamark:type", "lighthouse")]),
    ("Parks & Nature", [("leisure", "park"), ("natural", "wood"),
      ("landuse", "recreation_ground"), ("boundary", "protected_area")]),
    ("Beaches & Lakeshores", [("natural", "beach"), ("leisure", "beach_resort"),
      ("tourism", "beach")]),
    ("Waterfalls", [("natural", "waterfall"), ("waterway", "waterfall")]),
    ("Museums & Historic Sites", [("tourism", "museum"), ("historic", "monument")]),
    ("Public Art & Sculptures", [("tourism", "artwork")]),
    ("Breweries & Wineries", [("craft", "brewery"), ("industrial", "brewery"),
      ("amenity", "brewery")]),
    ("Hiking & Biking Trails", [("highway", "path"), ("route", "hiking"),
      ("route", "bicycle"), ("leisure", "track")]),
    ("Family Fun", [("tourism", "theme_park"), ("tourism", "zoo"),
      ("leisure", "water_park")]) ]

/-- The fixed closed category enumeration (the keys of `OSM_CATEGORY_MAP`). -/
def categories_list : List String :=
  OSM_CATEGORY_MAP.map (fun p => p.1)

/-- `LOOKUP`: the flattened ((key, value), category) table, in the insertion
order of the Python dict comprehension (all 25 pairs are distinct, so the
comprehension never overwrites an entry and insertion order is source order). -/
def LOOKUP : List ((String × String) × String) :=
  OSM_CATEGORY_MAP.flatMap (fun p => p.2.map (fun kv => (kv, p.1)))

/-- A raw OSM tag mapping (Python dict of strings, unique keys). -/
def RawTagSet : Type := List (String × String)

/-- The check `tags.get(k) == v` performed for one `LOOKUP` entry. -/
def explicitMatch (tags : RawTagSet) (p : (String × String) × String) : Bool :=
  dget tags p.1.1 == some p.1.2

/-- Python truthiness of an optional string (`None` and `""` are falsy). -/
def pyFalsyStr (o : Option String) : Bool :=
  match o with
  | none => true
  | some s => s == ""

/-- `detect_category` from `fetch_data.py`: explicit `LOOKUP` scan, then the
fixed heuristic rules, then the broad "interesting key" fallback. -/
def detect_category (tags : RawTagSet) : Option String :=
  if List.isEmpty tags then none
  else
    match LOOKUP.find? (explicitMatch tags) with
    | some p => some p.2
    | none =>
      if dget tags "tourism" == some "museum" || dget tags "tourism" == some "gallery"
          || dget tags "tourism" == some "attraction" then
        some "Museums & Historic Sites"
      else if dget tags "natural" == some "beach" then
        some "Beaches & Lakeshores"
      else if dget tags "natural" == some "waterfall"
          || dget tags "waterway" == some "waterfall" then
        some "Waterfalls"
      else
        let name := pyLower ((dget tags "name").getD "")
        if listHasSub "zoo".data name.data || dget tags "tourism" == some "zoo" then
          some "Family Fun"
        else if (["tourism", "leisure", "natural", "historic", "man_made", "highway",
            "route", "waterway"].any (fun k => (dget tags k).isSome)) then
          if dget tags "tourism" == some "theme_park"
              || dget tags "tourism" == some "attraction" then
            some "Family Fun"
          else
            some "Parks & Nature"
        else
          none

/-! ## Attraction records and the identity function (`make_unique_id`) -/

/-- An attraction record as built by the pipeline (a Python dict with keys
`name`, `latitude`, `longitude`, `type`, `source`, `tags`, and — once the
dedup loop has run — `id`). -/
structure Attraction where
  name : String
  latitude : ℚ
  longitude : ℚ
  type : String
  source : String
  tags : List (String × String)
  id : Option String
deriving DecidableEq

/-- The normalized string hashed by `make_unique_id`:
`f"{name}_{type}_{source}"`, plus `f"_{lat}_{lon}"` for every category other
than `"Hiking & Biking Trails"`. -/
def id_base (a : Attraction) : String :=
  let b := a.name ++ "_" ++ a.type ++ "_" ++ a.source
  if a.type ≠ "Hiking & Biking Trails" then
    b ++ "_" ++ coordRepr a.latitude ++ "_" ++ coordRepr a.longitude
  else b

/-- `make_unique_id` from `fetch_data.py`, with the md5 hexdigest abstracted
as a function parameter. -/
def make_unique_id (md5 : String → String) (a : Attraction) : String :=
  md5 (id_base a)

theorem coordRepr_data (q : ℚ) : (coordRepr q).data = coordChars q := rfl

theorem underscore_data : ("_" : String).data = ['_'] := rfl

theorem id_base_coords {a b : Attraction} (hn : a.name = b.name) (ht : a.type = b.type)
    (hs : a.source = b.source) (htr : a.type ≠ "Hiking & Biking Trails")
    (h : id_base a = id_base b) : a.latitude = b.latitude ∧ a.longitude = b.longitude := by
  obtain ⟨an, ala, alo, aty, asr, atg, aid⟩ := a
  obtain ⟨bn, bla, blo, bty, bsr, btg, bid⟩ := b
  simp only at hn ht hs htr
  subst hn ht hs
  simp only [id_base, if_pos htr] at h
  have hd := congrArg String.data h
  simp only [String.data_append, coordRepr_data, underscore_data, List.append_assoc,
    List.singleton_append] at hd
  have hd₁ := List.append_cancel_left hd
  have hd₂ := (List.cons.injEq _ _ _ _).mp hd₁
  have hd₃ := List.append_cancel_left hd₂.2
  have hd₄ := (List.cons.injEq _ _ _ _).mp hd₃
  have hd₅ := List.append_cancel_left hd₄.2
  have hd₆ := (List.cons.injEq _ _ _ _).mp hd₅
  have := splitAtChar coordChars_no_underscore coordChars_no_underscore hd₆.2
  exact ⟨coordChars_inj this.1, coordChars_inj this.2⟩

/-- C1: `make_unique_id` is a deterministic pure function of
(name, category, source, latitude, longitude); for category
"Hiking & Biking Trails" the identity does not depend on the coordinates;
for every other category, records that agree on name, category and source
but differ in coordinates hash different normalized strings, so a
collision-free hash gives them different identities. -/
theorem c1_identity_generator (md5 : String → String) :
    (∀ a b : Attraction, a.name = b.name → a.type = b.type → a.source = b.source →
      a.latitude = b.latitude → a.longitude = b.longitude →
      make_unique_id md5 a = make_unique_id md5 b)
    ∧ (∀ a b : Attraction, a.type = "Hiking & Biking Trails" →
      b.type = "Hiking & Biking Trails" → a.name = b.name → a.source = b.source →
      make_unique_id md5 a = make_unique_id md5 b)
    ∧ (Function.Injective md5 → ∀ a b : Attraction, a.name = b.name → a.type = b.type →
      a.source = b.source → a.type ≠ "Hiking & Biking Trails" →
      (a.latitude, a.longitude) ≠ (b.latitude, b.longitude) →
      make_unique_id md5 a ≠ make_unique_id md5 b) := by
  refine ⟨?_, ?_, ?_⟩
  · intro a b hn ht hs hla hlo
    obtain ⟨an, ala, alo, aty, asr, atg, aid⟩ := a
    obtain ⟨bn, bla, blo, bty, bsr, btg, bid⟩ := b
    simp only at hn ht hs hla hlo
    subst hn ht hs hla hlo
    rfl
  · intro a b hta htb hn hs
    obtain ⟨an, ala, alo, aty, asr, atg, aid⟩ := a
    obtain ⟨bn, bla, blo, bty, bsr, btg, bid⟩ := b
    simp only at hta htb hn hs
    subst hta htb hn hs
    simp [make_unique_id, id_base]
  · intro hinj a b hn ht hs htr hco heq
    have hb := hinj heq
    have := id_base_coords hn ht hs htr hb
    exact hco (Prod.ext this.1 this.2)

theorem c1_identity_generator_witness :
    make_unique_id (fun s => s)
        ⟨"Big Sable Point", 1, 2, "Lighthouses", "OpenStreetMap", [], none⟩ ≠
      make_unique_id (fun s => s)
        ⟨"Big Sable Point", 1, 3, "Lighthouses", "OpenStreetMap", [], none⟩ :=
  (c1_identity_generator (fun s => s)).2.2 (fun _ _ h => h) _ _ rfl rfl rfl
    (by decide) (by decide)

theorem lookup_cats : ∀ p ∈ LOOKUP, p.2 ∈ categories_list := by decide

/-- C3: `detect_category` is total — every tag set maps to `none`
("unclassified") or to a member of the fixed category enumeration — an
explicit `LOOKUP` pair always beats the later heuristic rules, and the three
concrete scenarios of the spec hold. -/
theorem c3_classifier :
    (∀ tags : RawTagSet, detect_category tags = none ∨
      ∃ c ∈ categories_list, detect_category tags = some c)
    ∧ (∀ (tags : RawTagSet) (p : (String × String) × String),
      LOOKUP.find? (explicitMatch tags) = some p → detect_category tags = some p.2)
    ∧ detect_category [("tourism", "museum")] = some "Museums & Historic Sites"
    ∧ detect_category [("natural", "beach")] = some "Beaches & Lakeshores"
    ∧ detect_category [("random_key", "x")] = none := by
  refine ⟨?_, ?_, by decide, by decide, by decide⟩
  · intro tags
    by_cases he : List.isEmpty tags
    · left; simp [detect_category, he]
    · cases hfind : LOOKUP.find? (explicitMatch tags) with
      | some p =>
        right
        exact ⟨p.2, lookup_cats p (List.mem_of_find?_eq_some hfind),
          by simp [detect_category, he, hfind]⟩
      | none =>
        simp only [detect_category, he, hfind, Bool.false_eq_true, if_false]
        split_ifs <;> first
          | (left; rfl)
          | (right; exact ⟨_, by decide, rfl⟩)
  · intro tags p hfind
    by_cases he : List.isEmpty tags
    · have ht : tags = [] := List.isEmpty_iff.mp he
      subst ht
      have : LOOKUP.find? (explicitMatch []) = none := by decide
      rw [this] at hfind
      cases hfind
    · simp [detect_category, he, hfind]

theorem c3_classifier_witness :
    detect_category [("natural", "beach"), ("tourism", "museum")] =
      some "Beaches & Lakeshores" :=
  c3_classifier.2.1 [("natural", "beach"), ("tourism", "museum")]
    (("natural", "beach"), "Beaches & Lakeshores") (by decide)

/-! ## Bounding boxes and the 3x4 grid partitioner (`BoundingBox`,
`MICHIGAN_BOUNDING_BOXES`, `michigan_chunks`) -/

structure BoundingBox where
  min_lat : ℚ
  max_lat : ℚ
  min_lon : ℚ
  max_lon : ℚ
deriving DecidableEq

/-- `BoundingBox.to_overpass`: `f"{min_lat},{min_lon},{max_lat},{max_lon}"`. -/
def BoundingBox.to_overpass (b : BoundingBox) : String :=
  coordRepr b.min_lat ++ "," ++ coordRepr b.min_lon ++ "," ++
    coordRepr b.max_lat ++ "," ++ coordRepr b.max_lon

inductive MichiganRegion where
  | upper_peninsula
  | lower_peninsula
  | entire_state
deriving DecidableEq

/-- `MICHIGAN_BOUNDING_BOXES` (the float literals of the source as exact
rationals). -/
def MICHIGAN_BOUNDING_BOXES : MichiganRegion → BoundingBox
  | .upper_peninsula => ⟨45, 475 / 10, -905 / 10, -835 / 10⟩
  | .lower_peninsula => ⟨417 / 10, 459 / 10, -87, -824 / 10⟩
  | .entire_state => ⟨417 / 10, 475 / 10, -905 / 10, -824 / 10⟩

/-- The body of `michigan_chunks`, generalized over the box being split
(the source hard-wires `bb` to the ENTIRE_STATE box): 3 equal latitude
steps times 4 equal longitude steps, row-major. -/
def grid_chunks (bb : BoundingBox) : List BoundingBox :=
  let lat_steps : List ℚ := [bb.min_lat, bb.min_lat + (bb.max_lat - bb.min_lat) / 3,
    bb.min_lat + 2 * (bb.max_lat - bb.min_lat) / 3, bb.max_lat]
  let lon_steps : List ℚ := [bb.min_lon, bb.min_lon + (bb.max_lon - bb.min_lon) / 4,
    bb.min_lon + 2 * (bb.max_lon - bb.min_lon) / 4,
    bb.min_lon + 3 * (bb.max_lon - bb.min_lon) / 4, bb.max_lon]
  (List.range 3).flatMap (fun i => (List.range 4).map (fun j =>
    ⟨lat_steps.getD i 0, lat_steps.getD (i + 1) 0,
      lon_steps.getD j 0, lon_steps.getD (j + 1) 0⟩))

/-- `michigan_chunks` from `fetch_data.py`. -/
def michigan_chunks : List BoundingBox :=
  grid_chunks (MICHIGAN_BOUNDING_BOXES .entire_state)

/-- Two boxes overlap when their interiors intersect (sharing only an edge is
not an overlap). -/
def overlaps (a b : BoundingBox) : Prop :=
  a.min_lat < b.max_lat ∧ b.min_lat < a.max_lat ∧
    a.min_lon < b.max_lon ∧ b.min_lon < a.max_lon

theorem grid_chunks_eq (bb : BoundingBox) : grid_chunks bb =
    [⟨bb.min_lat, bb.min_lat + (bb.max_lat - bb.min_lat) / 3,
       bb.min_lon, bb.min_lon + (bb.max_lon - bb.min_lon) / 4⟩,
     ⟨bb.min_lat, bb.min_lat + (bb.max_lat - bb.min_lat) / 3,
       bb.min_lon + (bb.max_lon - bb.min_lon) / 4, bb.min_lon + 2 * (bb.max_lon - bb.min_lon) / 4⟩,
     ⟨bb.min_lat, bb.min_lat + (bb.max_lat - bb.min_lat) / 3,
       bb.min_lon + 2 * (bb.max_lon - bb.min_lon) / 4, bb.min_lon + 3 * (bb.max_lon - bb.min_lon) / 4⟩,
     ⟨bb.min_lat, bb.min_lat + (bb.max_lat - bb.min_lat) / 3,
       bb.min_lon + 3 * (bb.max_lon - bb.min_lon) / 4, bb.max_lon⟩,
     ⟨bb.min_lat + (bb.max_lat - bb.min_lat) / 3, bb.min_lat + 2 * (bb.max_lat - bb.min_lat) / 3,
       bb.min_lon, bb.min_lon + (bb.max_lon - bb.min_lon) / 4⟩,
     ⟨bb.min_lat + (bb.max_lat - bb.min_lat) / 3, bb.min_lat + 2 * (bb.max_lat - bb.min_lat) / 3,
       bb.min_lon + (bb.max_lon - bb.min_lon) / 4, bb.min_lon + 2 * (bb.max_lon - bb.min_lon) / 4⟩,
     ⟨bb.min_lat + (bb.max_lat - bb.min_lat) / 3, bb.min_lat + 2 * (bb.max_lat - bb.min_lat) / 3,
       bb.min_lon + 2 * (bb.max_lon - bb.min_lon) / 4, bb.min_lon + 3 * (bb.max_lon - bb.min_lon) / 4⟩,
     ⟨bb.min_lat + (bb.max_lat - bb.min_lat) / 3, bb.min_lat + 2 * (bb.max_lat - bb.min_lat) / 3,
       bb.min_lon + 3 * (bb.max_lon - bb.min_lon) / 4, bb.max_lon⟩,
     ⟨bb.min_lat + 2 * (bb.max_lat - bb.min_lat) / 3, bb.max_lat,
       bb.min_lon, bb.min_lon + (bb.max_lon - bb.min_lon) / 4⟩,
     ⟨bb.min_lat + 2 * (bb.max_lat - bb.min_lat) / 3, bb.max_lat,
       bb.min_lon + (bb.max_lon - bb.min_lon) / 4, bb.min_lon + 2 * (bb.max_lon - bb.min_lon) / 4⟩,
     ⟨bb.min_lat + 2 * (bb.max_lat - bb.min_lat) / 3, bb.max_lat,
       bb.min_lon + 2 * (bb.max_lon - bb.min_lon) / 4, bb.min_lon + 3 * (bb.max_lon - bb.min_lon) / 4⟩,
     ⟨bb.min_lat + 2 * (bb.max_lat - bb.min_lat) / 3, bb.max_lat,
       bb.min_lon + 3 * (bb.max_lon - bb.min_lon) / 4, bb.max_lon⟩] := rfl

theorem lat_band (m M x : ℚ) (h1 : m ≤ x) (h2 : x ≤ M) :
    (m ≤ x ∧ x ≤ m + (M - m) / 3) ∨
      (m + (M - m) / 3 ≤ x ∧ x ≤ m + 2 * (M - m) / 3) ∨
      (m + 2 * (M - m) / 3 ≤ x ∧ x ≤ M) := by
  by_cases hA : x ≤ m + (M - m) / 3
  · exact Or.inl ⟨h1, hA⟩
  · by_cases hB : x ≤ m + 2 * (M - m) / 3
    · exact Or.inr (Or.inl ⟨by linarith, hB⟩)
    · exact Or.inr (Or.inr ⟨by linarith, h2⟩)

theorem lon_band (m M x : ℚ) (h1 : m ≤ x) (h2 : x ≤ M) :
    (m ≤ x ∧ x ≤ m + (M - m) / 4) ∨
      (m + (M - m) / 4 ≤ x ∧ x ≤ m + 2 * (M - m) / 4) ∨
      (m + 2 * (M - m) / 4 ≤ x ∧ x ≤ m + 3 * (M - m) / 4) ∨
      (m + 3 * (M - m) / 4 ≤ x ∧ x ≤ M) := by
  by_cases hA : x ≤ m + (M - m) / 4
  · exact Or.inl ⟨h1, hA⟩
  · by_cases hB : x ≤ m + 2 * (M - m) / 4
    · exact Or.inr (Or.inl ⟨by linarith, hB⟩)
    · by_cases hC : x ≤ m + 3 * (M - m) / 4
      · exact Or.inr (Or.inr (Or.inl ⟨by linarith, hC⟩))
      · exact Or.inr (Or.inr (Or.inr ⟨by linarith, h2⟩))

/-- C4: for every well-formed box the partitioner yields exactly 12
sub-boxes, each one latitude band of width (Δlat)/3 and one longitude band of
width (Δlon)/4, pairwise non-overlapping, lying inside the input box and
jointly covering it (so the union reconstructs the input bounds exactly). -/
theorem c4_partitioner (bb : BoundingBox) (hlat : bb.min_lat ≤ bb.max_lat)
    (hlon : bb.min_lon ≤ bb.max_lon) :
    (grid_chunks bb).length = 12
    ∧ (∀ b ∈ grid_chunks bb, b.max_lat - b.min_lat = (bb.max_lat - bb.min_lat) / 3 ∧
        b.max_lon - b.min_lon = (bb.max_lon - bb.min_lon) / 4)
    ∧ List.Pairwise (fun x y => ¬ overlaps x y) (grid_chunks bb)
    ∧ (∀ b ∈ grid_chunks bb, bb.min_lat ≤ b.min_lat ∧ b.max_lat ≤ bb.max_lat ∧
        bb.min_lon ≤ b.min_lon ∧ b.max_lon ≤ bb.max_lon)
    ∧ (∀ la lo : ℚ, bb.min_lat ≤ la → la ≤ bb.max_lat → bb.min_lon ≤ lo →
        lo ≤ bb.max_lon → ∃ b ∈ grid_chunks bb,
          b.min_lat ≤ la ∧ la ≤ b.max_lat ∧ b.min_lon ≤ lo ∧ lo ≤ b.max_lon) := by
  refine ⟨by rw [grid_chunks_eq]; rfl, ?_, ?_, ?_, ?_⟩
  · intro b hb
    rw [grid_chunks_eq] at hb
    simp only [List.mem_cons, List.not_mem_nil, or_false] at hb
    rcases hb with rfl | rfl | rfl | rfl | rfl | rfl | rfl | rfl | rfl | rfl | rfl | rfl <;>
      exact ⟨by ring, by ring⟩
  · rw [grid_chunks_eq]
    simp only [List.pairwise_cons, List.mem_cons, List.not_mem_nil, or_false,
      forall_eq_or_imp, forall_eq, overlaps, not_and, not_lt]
    and_intros <;> (intros; first
      | trivial
      | linarith)
  · intro b hb
    rw [grid_chunks_eq] at hb
    simp only [List.mem_cons, List.not_mem_nil, or_false] at hb
    rcases hb with rfl | rfl | rfl | rfl | rfl | rfl | rfl | rfl | rfl | rfl | rfl | rfl <;>
      exact ⟨by linarith, by linarith, by linarith, by linarith⟩
  · intro la lo h1 h2 h3 h4
    rcases lat_band bb.min_lat bb.max_lat la h1 h2 with hA | hA | hA <;>
      rcases lon_band bb.min_lon bb.max_lon lo h3 h4 with hB | hB | hB | hB
    · exact ⟨⟨bb.min_lat, bb.min_lat + (bb.max_lat - bb.min_lat) / 3,
        bb.min_lon, bb.min_lon + (bb.max_lon - bb.min_lon) / 4⟩,
        by rw [grid_chunks_eq]; simp, hA.1, hA.2, hB.1, hB.2⟩
    · exact ⟨⟨bb.min_lat, bb.min_lat + (bb.max_lat - bb.min_lat) / 3,
        bb.min_lon + (bb.max_lon - bb.min_lon) / 4,
        bb.min_lon + 2 * (bb.max_lon - bb.min_lon) / 4⟩,
        by rw [grid_chunks_eq]; simp, hA.1, hA.2, hB.1, hB.2⟩
    · exact ⟨⟨bb.min_lat, bb.min_lat + (bb.max_lat - bb.min_lat) / 3,
        bb.min_lon + 2 * (bb.max_lon - bb.min_lon) / 4,
        bb.min_lon + 3 * (bb.max_lon - bb.min_lon) / 4⟩,
        by rw [grid_chunks_eq]; simp, hA.1, hA.2, hB.1, hB.2⟩
    · exact ⟨⟨bb.min_lat, bb.min_lat + (bb.max_lat - bb.min_lat) / 3,
        bb.min_lon + 3 * (bb.max_lon - bb.min_lon) / 4, bb.max_lon⟩,
        by rw [grid_chunks_eq]; simp, hA.1, hA.2, hB.1, hB.2⟩
    · exact ⟨⟨bb.min_lat + (bb.max_lat - bb.min_lat) / 3,
        bb.min_lat + 2 * (bb.max_lat - bb.min_lat) / 3,
        bb.min_lon, bb.min_lon + (bb.max_lon - bb.min_lon) / 4⟩,
        by rw [grid_chunks_eq]; simp, hA.1, hA.2, hB.1, hB.2⟩
    · exact ⟨⟨bb.min_lat + (bb.max_lat - bb.min_lat) / 3,
        bb.min_lat + 2 * (bb.max_lat - bb.min_lat) / 3,
        bb.min_lon + (bb.max_lon - bb.min_lon) / 4,
        bb.min_lon + 2 * (bb.max_lon - bb.min_lon) / 4⟩,
        by rw [grid_chunks_eq]; simp, hA.1, hA.2, hB.1, hB.2⟩
    · exact ⟨⟨bb.min_lat + (bb.max_lat - bb.min_lat) / 3,
        bb.min_lat + 2 * (bb.max_lat - bb.min_lat) / 3,
        bb.min_lon + 2 * (bb.max_lon - bb.min_lon) / 4,
        bb.min_lon + 3 * (bb.max_lon - bb.min_lon) / 4⟩,
        by rw [grid_chunks_eq]; simp, hA.1, hA.2, hB.1, hB.2⟩
    · exact ⟨⟨bb.min_lat + (bb.max_lat - bb.min_lat) / 3,
        bb.min_lat + 2 * (bb.max_lat - bb.min_lat) / 3,
        bb.min_lon + 3 * (bb.max_lon - bb.min_lon) / 4, bb.max_lon⟩,
        by rw [grid_chunks_eq]; simp, hA.1, hA.2, hB.1, hB.2⟩
    · exact ⟨⟨bb.min_lat + 2 * (bb.max_lat - bb.min_lat) / 3, bb.max_lat,
        bb.min_lon, bb.min_lon + (bb.max_lon - bb.min_lon) / 4⟩,
        by rw [grid_chunks_eq]; simp, hA.1, hA.2, hB.1, hB.2⟩
    · exact ⟨⟨bb.min_lat + 2 * (bb.max_lat - bb.min_lat) / 3, bb.max_lat,
        bb.min_lon + (bb.max_lon - bb.min_lon) / 4,
        bb.min_lon + 2 * (bb.max_lon - bb.min_lon) / 4⟩,
        by rw [grid_chunks_eq]; simp, hA.1, hA.2, hB.1, hB.2⟩
    · exact ⟨⟨bb.min_lat + 2 * (bb.max_lat - bb.min_lat) / 3, bb.max_lat,
        bb.min_lon + 2 * (bb.max_lon - bb.min_lon) / 4,
        bb.min_lon + 3 * (bb.max_lon - bb.min_lon) / 4⟩,
        by rw [grid_chunks_eq]; simp, hA.1, hA.2, hB.1, hB.2⟩
    · exact ⟨⟨bb.min_lat + 2 * (bb.max_lat - bb.min_lat) / 3, bb.max_lat,
        bb.min_lon + 3 * (bb.max_lon - bb.min_lon) / 4, bb.max_lon⟩,
        by rw [grid_chunks_eq]; simp, hA.1, hA.2, hB.1, hB.2⟩

theorem c4_partitioner_witness :
    ((417 : ℚ) / 10 ≤ 475 / 10 ∧ (-905 : ℚ) / 10 ≤ -824 / 10) ∧
      michigan_chunks.length = 12 ∧
      List.Pairwise (fun x y => ¬ overlaps x y) michigan_chunks :=
  ⟨⟨by norm_num, by norm_num⟩,
    (c4_partitioner (MICHIGAN_BOUNDING_BOXES .entire_state)
      (by norm_num [MICHIGAN_BOUNDING_BOXES]) (by norm_num [MICHIGAN_BOUNDING_BOXES])).1,
    (c4_partitioner (MICHIGAN_BOUNDING_BOXES .entire_state)
      (by norm_num [MICHIGAN_BOUNDING_BOXES]) (by norm_num [MICHIGAN_BOUNDING_BOXES])).2.2.1⟩

theorem detect_category_mem {tags : RawTagSet} {c : String}
    (h : detect_category tags = some c) : c ∈ categories_list := by
  by_cases he : List.isEmpty tags
  · simp [detect_category, he] at h
  · cases hfind : LOOKUP.find? (explicitMatch tags) with
    | some p =>
      simp [detect_category, he, hfind] at h
      exact h ▸ lookup_cats p (List.mem_of_find?_eq_some hfind)
    | none =>
      simp only [detect_category, he, hfind, Bool.false_eq_true, if_false] at h
      split_ifs at h <;> cases h <;> decide

/-! ## Overpass protocol model (`fetch_json_overpass`,
`parse_overpass_elements`, `build_overpass_query`,
`fetch_overpass_for_bbox_list`) -/

/-- The optional `center` object of a non-point element. -/
structure OsmCenter where
  lat : Option ℚ
  lon : Option ℚ
deriving DecidableEq

/-- One element of an Overpass JSON response. -/
structure OsmElement where
  tags : Option (List (String × String))
  lat : Option ℚ
  lon : Option ℚ
  center : Option OsmCenter
deriving DecidableEq

/-- An Overpass JSON response body (the `elements` key may be absent). -/
structure OverpassData where
  elements : Option (List OsmElement)
deriving DecidableEq

/-- Python `a or b` on optional floats: `None` and `0.0` are falsy, so a
direct coordinate of `0` falls through to the second operand. -/
def pyOrQ (a b : Option ℚ) : Option ℚ :=
  match a with
  | some x => if x = 0 then b else some x
  | none => b

/-- The body of the per-element loop of `parse_overpass_elements`. -/
def parse_overpass_element (filter_category : Option String) (el : OsmElement) :
    Option Attraction :=
  let tags := el.tags.getD []
  match dget tags "name" with
  | none => none
  | some n =>
    if n = "" then none
    else
      match pyOrQ el.lat (el.center.bind OsmCenter.lat),
          pyOrQ el.lon (el.center.bind OsmCenter.lon) with
      | some la, some lo =>
        match detect_category tags with
        | none => none
        | some cat =>
          if cat = "" then none
          else if pyFalsyStr filter_category = false ∧ some cat ≠ filter_category then none
          else some ⟨n, la, lo, cat, "OpenStreetMap", tags, none⟩
      | _, _ => none

/-- `parse_overpass_elements` from `fetch_data.py` (`data` may be a fetch
failure (`none`) or lack the `elements` key). -/
def parse_overpass_elements (data : Option OverpassData)
    (filter_category : Option String) : List Attraction :=
  match data with
  | none => []
  | some d =>
    match d.elements with
    | none => []
    | some els => els.filterMap (parse_overpass_element filter_category)

/-- `CATEGORY_TO_PAIRS` is the same association as `OSM_CATEGORY_MAP`. -/
def CATEGORY_TO_PAIRS : List (String × List (String × String)) :=
  OSM_CATEGORY_MAP

/-- The three query lines emitted for one (key, value) pair. -/
def overpass_pair_lines (bbox : String) (kv : String × String) : List String :=
  [ "node[\"" ++ kv.1 ++ "\"=\"" ++ kv.2 ++ "\"](" ++ bbox ++ ");",
    "way[\"" ++ kv.1 ++ "\"=\"" ++ kv.2 ++ "\"](" ++ bbox ++ ");",
    "relation[\"" ++ kv.1 ++ "\"=\"" ++ kv.2 ++ "\"](" ++ bbox ++ ");" ]

/-- The broad scan body used when no category is selected. -/
def broad_body (bbox : String) : String :=
  "nwr[\"tourism\"](" ++ bbox ++ ");\n nwr[\"leisure\"](" ++ bbox ++
    ");\n nwr[\"natural\"](" ++ bbox ++ ");\n nwr[\"man_made\"](" ++ bbox ++ ");"

/-- `build_overpass_query` from `fetch_data.py`. -/
def build_overpass_query (bbox : String) (category : Option String) (tmo : ℕ) : String :=
  let body :=
    match category with
    | some c =>
      match dget CATEGORY_TO_PAIRS c with
      | some pairs =>
        if c = "" then broad_body bbox
        else String.intercalate "\n" (pairs.flatMap (overpass_pair_lines bbox))
      | none => broad_body bbox
    | none => broad_body bbox
  "[out:json][timeout:" ++ (⟨natChars tmo⟩ : String) ++ "];(\n" ++ body ++
    "\n);\nout center qt;"

/-- Trace of one `fetch_json_overpass` call: the returned value, how many
attempts were made, and the backoff sleeps performed between attempts. -/
structure FetchTrace (α : Type) where
  result : Option α
  attempts : ℕ
  sleeps : List ℕ

/-- The retry loop `for attempt in range(1, retries+1)` of
`fetch_json_overpass`; the oracle maps the attempt number to the parsed
response, `none` standing for any caught failure (transport error,
non-success status, empty body, unparsable JSON). -/
def fetchAttempts {α : Type} (oracle : ℕ → Option α) (retries : ℕ) :
    List ℕ → FetchTrace α
  | [] => ⟨none, 0, []⟩
  | a :: rest =>
    match oracle a with
    | some d => ⟨some d, 1, []⟩
    | none =>
      let t := fetchAttempts oracle retries rest
      ⟨t.result, t.attempts + 1, (if a < retries then [2 ^ a] else []) ++ t.sleeps⟩

/-- `fetch_json_overpass` from `fetch_data.py`: every exception is caught
inside the loop and after the retry budget the function returns `none`
(modelled by the totality of this definition). -/
def fetch_json_overpass {α : Type} (oracle : ℕ → Option α) (retries : ℕ) :
    FetchTrace α :=
  fetchAttempts oracle retries (List.range' 1 retries)

/-- Trace of `fetch_overpass_for_bbox_list`: collected results and how many
chunks the loop visited. -/
structure FetchRun where
  results : List Attraction
  processed : ℕ
deriving DecidableEq

/-- The per-chunk loop of `fetch_overpass_for_bbox_list`; the oracle maps
(query string, attempt number) to the optional parsed response. -/
def fetch_chunks (oracle : String → ℕ → Option OverpassData)
    (category : Option String) : List BoundingBox → FetchRun
  | [] => ⟨[], 0⟩
  | b :: rest =>
    let q := build_overpass_query b.to_overpass category 30
    let data := (fetch_json_overpass (oracle q) 3).result
    let parsed :=
      match data with
      | some d => parse_overpass_elements (some d) category
      | none => []
    let r := fetch_chunks oracle category rest
    ⟨parsed ++ r.results, r.processed + 1⟩

/-- `fetch_overpass_for_bbox_list` from `fetch_data.py`: in test mode only
the first chunk is kept. -/
def fetch_overpass_for_bbox_list (oracle : String → ℕ → Option OverpassData)
    (bboxes : List BoundingBox) (category : Option String) (test_mode : Bool) :
    FetchRun :=
  fetch_chunks oracle category (if test_mode then bboxes.take 1 else bboxes)

/-- A per-attempt stub that always fails. -/
def attempt_always_fails : ℕ → Option OverpassData := fun _ => none

/-- A per-query stub on which every attempt of every query fails. -/
def oracle_always_fails : String → ℕ → Option OverpassData := fun _ _ => none

theorem fetch_chunks_processed (oracle : String → ℕ → Option OverpassData)
    (category : Option String) (bs : List BoundingBox) :
    (fetch_chunks oracle category bs).processed = bs.length := by
  induction bs with
  | nil => rfl
  | cons b rest ih => simp [fetch_chunks, ih]

theorem fetch_chunks_fail_results (category : Option String) (bs : List BoundingBox) :
    (fetch_chunks oracle_always_fails category bs).results = [] := by
  induction bs with
  | nil => rfl
  | cons b rest ih =>
    simp [fetch_chunks, ih, fetch_json_overpass, fetchAttempts, oracle_always_fails]

/-- C5: with a stub on which every attempt fails, `fetch_json_overpass`
makes exactly 3 attempts, sleeps `2^attempt` seconds between consecutive
attempts (`2^1` then `2^2`), returns the failure signal `none` (no exception
escapes: the model is a total function), and the chunk loop still visits
every bounding box, collecting zero results instead of aborting. -/
theorem c5_retrying_fetcher :
    (fetch_json_overpass attempt_always_fails 3).result = none
    ∧ (fetch_json_overpass attempt_always_fails 3).attempts = 3
    ∧ (fetch_json_overpass attempt_always_fails 3).sleeps = [2 ^ 1, 2 ^ 2]
    ∧ ∀ (bboxes : List BoundingBox) (category : Option String),
        (fetch_overpass_for_bbox_list oracle_always_fails bboxes category false).results = []
        ∧ (fetch_overpass_for_bbox_list oracle_always_fails bboxes category
            false).processed = bboxes.length := by
  refine ⟨rfl, rfl, rfl, ?_⟩
  intro bboxes category
  exact ⟨fetch_chunks_fail_results category bboxes,
    fetch_chunks_processed oracle_always_fails category bboxes⟩

theorem parse_overpass_element_latitude {fc : Option String} {el : OsmElement}
    {r : Attraction} (h : parse_overpass_element fc el = some r) :
    pyOrQ el.lat (el.center.bind OsmCenter.lat) = some r.latitude := by
  unfold parse_overpass_element at h
  dsimp only at h
  rcases hname : dget (el.tags.getD []) "name" with _ | n <;> simp only [hname] at h
  · cases h
  · by_cases hn : n = ""
    · rw [if_pos hn] at h; cases h
    · rw [if_neg hn] at h
      rcases hla : pyOrQ el.lat (el.center.bind OsmCenter.lat) with _ | lav <;>
        simp only [hla] at h
      · cases h
      · rcases hlo : pyOrQ el.lon (el.center.bind OsmCenter.lon) with _ | lov <;>
          simp only [hlo] at h
        · cases h
        · rcases hcat : detect_category (el.tags.getD []) with _ | cat <;>
            simp only [hcat] at h
          · cases h
          · by_cases hc : cat = ""
            · rw [if_pos hc] at h; cases h
            · rw [if_neg hc] at h
              by_cases hf : pyFalsyStr fc = false ∧ some cat ≠ fc
              · rw [if_pos hf] at h; cases h
              · rw [if_neg hf] at h
                cases h
                rfl

/-- C10: the parser evaluates `el.get("lat") or el.get("center").get("lat")`
with Python truthiness, so a direct coordinate of `0` falls back to the
center coordinate, a direct coordinate is preferred only when non-zero, and
an element whose direct latitude is `0` with no center is dropped. -/
theorem c10_zero_coordinate :
    (∀ b : Option ℚ, pyOrQ (some 0) b = b)
    ∧ (∀ (d : ℚ) (b : Option ℚ), d ≠ 0 → pyOrQ (some d) b = some d)
    ∧ (∀ b : Option ℚ, pyOrQ none b = b)
    ∧ (∀ (tags : List (String × String)) (lonv : Option ℚ) (fc : Option String),
        parse_overpass_element fc ⟨some tags, some 0, lonv, none⟩ = none)
    ∧ (∀ (el : OsmElement) (c : OsmCenter) (fc : Option String) (r : Attraction)
        (cl : ℚ), el.lat = some 0 → el.center = some c → c.lat = some cl →
        parse_overpass_element fc el = some r → r.latitude = cl) := by
  refine ⟨fun b => by simp [pyOrQ], fun d b hd => by simp [pyOrQ, hd], fun b => rfl,
    ?_, ?_⟩
  · intro tags lonv fc
    rcases hname : dget tags "name" with _ | n <;>
      simp [parse_overpass_element, pyOrQ, hname]
  · intro el c fc r cl hlat hcen hcl h
    have := parse_overpass_element_latitude h
    rw [hlat, hcen] at this
    simp [pyOrQ, hcl] at this
    exact this.symm

theorem c10_zero_coordinate_witness :
    parse_overpass_element none
        ⟨some [("name", "A"), ("tourism", "museum")], some 0, some 5,
          some ⟨some 7, some 8⟩⟩ =
      some ⟨"A", 7, 5, "Museums & Historic Sites", "OpenStreetMap",
        [("name", "A"), ("tourism", "museum")], none⟩ ∧
    (⟨"A", 7, 5, "Museums & Historic Sites", "OpenStreetMap",
        [("name", "A"), ("tourism", "museum")], none⟩ : Attraction).latitude = 7 :=
  ⟨by decide, c10_zero_coordinate.2.2.2.2
    ⟨some [("name", "A"), ("tourism", "museum")], some 0, some 5, some ⟨some 7, some 8⟩⟩
    ⟨some 7, some 8⟩ none
    ⟨"A", 7, 5, "Museums & Historic Sites", "OpenStreetMap",
      [("name", "A"), ("tourism", "museum")], none⟩ 7 rfl rfl rfl (by decide)⟩

/-! ## DNR tabular model (`load_csv_tolerant` output, `extract_geo_from_row`,
`parse_dnr_source`) -/

/-- A pandas cell value that is not NaN: a string or a number. -/
inductive PyVal where
  | str (s : String)
  | num (q : ℚ)
deriving DecidableEq

/-- A data frame: the column list and the rows (each row associates a column
name to `none` for NaN or `some` value). -/
structure DataFrame where
  columns : List String
  rows : List (List (String × Option PyVal))
deriving DecidableEq

/-- `c in row and pd.notna(row[c])` followed by reading `row[c]`. -/
def cellVal (row : List (String × Option PyVal)) (c : String) : Option PyVal :=
  match dget row c with
  | some (some v) => some v
  | _ => none

/-- `next((row[c] for c in cols if c in row and pd.notna(row[c])), None)`. -/
def firstCell (row : List (String × Option PyVal)) (cols : List String) :
    Option PyVal :=
  List.findSome? (cellVal row) cols

/-- Model of Python `str(v)` on a cell value (the float case reuses the
injective decimal rendering). -/
def pyStr : PyVal → String
  | .str s => s
  | .num q => coordRepr q

/-- Digits-to-number accumulator for the model of `float(str)`. -/
def digitsAcc (acc : ℕ) : List Char → Option ℕ
  | [] => some acc
  | c :: rest => if c.isDigit then digitsAcc (acc * 10 + (c.toNat - 48)) rest else none

/-- Simplified model of Python `float` applied to a string: optional sign,
integer part, optional fractional part (no exponents / inf / nan). -/
def parseDec (s : String) : Option ℚ :=
  let l := (pyStrip s).data
  let sl : ℚ × List Char :=
    match l with
    | '-' :: r => (-1, r)
    | '+' :: r => (1, r)
    | _ => (1, l)
  let ip := sl.2.takeWhile (fun c => c ≠ '.')
  let rest := sl.2.dropWhile (fun c => c ≠ '.')
  match rest with
  | [] => if ip.isEmpty then none else (digitsAcc 0 ip).map (fun n => sl.1 * n)
  | _ :: frac =>
    if ip.isEmpty && frac.isEmpty then none
    else
      match digitsAcc 0 ip, digitsAcc 0 frac with
      | some i, some f => some (sl.1 * (i + (f : ℚ) / 10 ^ frac.length))
      | _, _ => none

/-- Model of Python `float(v)` on a cell value. -/
def pyFloatQ : PyVal → Option ℚ
  | .num q => some q
  | .str s => parseDec s

/-- `extract_geo_from_row` from `fetch_data.py`: resolve name/lat/lon from
the per-role column lists, then `str(name).strip()` and `float` conversions,
any failure yielding `None`. -/
def extract_geo_from_row (row : List (String × Option PyVal))
    (name_cols lat_cols lon_cols : List String) : Option (String × ℚ × ℚ) :=
  match firstCell row name_cols, firstCell row lat_cols, firstCell row lon_cols with
  | some n, some la, some lo =>
    match pyFloatQ la, pyFloatQ lo with
    | some laq, some loq => some (pyStrip (pyStr n), laq, loq)
    | _, _ => none
  | _, _, _ => none

def dnr_name_aliases : List String := ["FACILITY", "Name", "Trail_Name", "NAME", "name"]

def dnr_lat_aliases : List String := ["LATITUDE", "Latitude", "lat", "Y"]

def dnr_lon_aliases : List String := ["LONGITUDE", "Longitude", "lon", "X"]

def dnr_tag_keys : List String := ["ACRES", "Type", "Length_Miles", "Difficulty", "Surface_Type"]

/-- `name_cols = [c for c in (aliases) if c in df.columns]`. -/
def dnr_name_cols (df : DataFrame) : List String :=
  dnr_name_aliases.filter (fun c => decide (c ∈ df.columns))

def dnr_lat_cols (df : DataFrame) : List String :=
  dnr_lat_aliases.filter (fun c => decide (c ∈ df.columns))

def dnr_lon_cols (df : DataFrame) : List String :=
  dnr_lon_aliases.filter (fun c => decide (c ∈ df.columns))

/-- The per-row descriptive tags copied by `parse_dnr_source`
(`str(row.get(k, "")) if pd.notna(...) else ""` under `k.lower()`). -/
def dnr_row_tags (df : DataFrame) (row : List (String × Option PyVal)) :
    List (String × String) :=
  (dnr_tag_keys.filter (fun k => decide (k ∈ df.columns))).map (fun k =>
    (pyLower k,
      match (dget row k).join with
      | some v => pyStr v
      | none => ""))

/-- `parse_dnr_source` from `fetch_data.py`. -/
def parse_dnr_source (df : DataFrame) (category : String) : List Attraction :=
  if df.rows.isEmpty then []
  else
    if (dnr_name_cols df).isEmpty || (dnr_lat_cols df).isEmpty ||
        (dnr_lon_cols df).isEmpty then []
    else
      df.rows.filterMap (fun row =>
        (extract_geo_from_row row (dnr_name_cols df) (dnr_lat_cols df)
            (dnr_lon_cols df)).map (fun geo =>
          ⟨geo.1, geo.2.1, geo.2.2, category, "Michigan DNR",
            dnr_row_tags df row, none⟩))

/-- Modelled from the spec, sections 4.5 and 8 ("resolve the name column from
an ordered list of accepted aliases (first alias present in the schema
wins)", "Per row: skip if any of name/lat/lon is absent or unparsable"): the
role columns are fixed once per source as the first alias present in the
schema, and every row then reads exactly those columns, being skipped when
its value there is absent. -/
def parse_dnr_source_spec (df : DataFrame) (category : String) : List Attraction :=
  if df.rows.isEmpty then []
  else
    match dnr_name_aliases.find? (fun c => decide (c ∈ df.columns)),
        dnr_lat_aliases.find? (fun c => decide (c ∈ df.columns)),
        dnr_lon_aliases.find? (fun c => decide (c ∈ df.columns)) with
    | some nc, some lc, some oc =>
      df.rows.filterMap (fun row =>
        match cellVal row nc, cellVal row lc, cellVal row oc with
        | some n, some la, some lo =>
          match pyFloatQ la, pyFloatQ lo with
          | some laq, some loq =>
            some ⟨pyStrip (pyStr n), laq, loq, category, "Michigan DNR",
              dnr_row_tags df row, none⟩
          | _, _ => none
        | _, _, _ => none)
    | _, _, _ => []

/-- `DNR_SOURCES`: source key, URL, fixed category. -/
def DNR_SOURCES : List (String × String × String) :=
  [ ("parks",
      "https://gis-midnr.opendata.arcgis.com/datasets/midnr::michigan-state-park-boundaries-1.csv",
      "Parks & Nature"),
    ("campgrounds",
      "https://gis-midnr.opendata.arcgis.com/datasets/michigan-state-park-campgrounds-1.csv",
      "Family Fun"),
    ("trails", "https://gis-midnr.opendata.arcgis.com/datasets/dnr-trails.csv",
      "Hiking & Biking Trails") ]

/-- The concrete scenario source of the spec. -/
def tahquamenon_df : DataFrame :=
  ⟨["FACILITY", "LATITUDE", "LONGITUDE"],
    [[("FACILITY", some (.str "Tahquamenon Falls")),
      ("LATITUDE", some (.num (4657 / 100))),
      ("LONGITUDE", some (.num (-8523 / 100)))]]⟩

def tahquamenon_record : Attraction :=
  ⟨"Tahquamenon Falls", 4657 / 100, -8523 / 100, "Parks & Nature",
    "Michigan DNR", [], none⟩

theorem tahquamenon_parse :
    parse_dnr_source tahquamenon_df "Parks & Nature" = [tahquamenon_record] := rfl

/-- A source whose schema carries two name aliases, the first one null in
the single row. -/
def fallback_df : DataFrame :=
  ⟨["FACILITY", "Name", "LATITUDE", "LONGITUDE"],
    [[("FACILITY", none), ("Name", some (.str "Alt Trailhead")),
      ("LATITUDE", some (.num 1)), ("LONGITUDE", some (.num 2))]]⟩

/-- C6 counterexample: on `fallback_df` the first name alias present in the
schema is `FACILITY`, whose cell is null in the only row, yet the loader
still produces a record — it resolved the name from the later alias `Name`
for that row, so resolution is not "first alias present in the schema wins,
for every row" (the spec-modelled loader that resolves per schema skips the
row instead). -/
theorem c6_tabular_loader_counterexample :
    parse_dnr_source fallback_df "Parks & Nature" =
      [⟨"Alt Trailhead", 1, 2, "Parks & Nature", "Michigan DNR", [], none⟩]
    ∧ parse_dnr_source_spec fallback_df "Parks & Nature" = []
    ∧ dnr_name_aliases.find? (fun c => decide (c ∈ fallback_df.columns)) =
        some "FACILITY"
    ∧ cellVal (fallback_df.rows.getD 0 []) "FACILITY" = none
    ∧ parse_dnr_source fallback_df "Parks & Nature" ≠
        parse_dnr_source_spec fallback_df "Parks & Nature" := by
  refine ⟨rfl, rfl, by decide, rfl, ?_⟩
  intro h
  rw [show parse_dnr_source fallback_df "Parks & Nature" =
    [⟨"Alt Trailhead", 1, 2, "Parks & Nature", "Michigan DNR", [], none⟩] from rfl] at h
  rw [show parse_dnr_source_spec fallback_df "Parks & Nature" = [] from rfl] at h
  cases h

/-- C6 (amended): per row, each of the three roles resolves to the first
accepted alias that is present in the schema and non-null in that row (a
null cell under an earlier alias falls back to a later alias rather than
skipping the row); if some role has no alias in the schema the whole source
yields zero records; and the concrete FACILITY/LATITUDE/LONGITUDE scenario
yields exactly one record carrying the category configured for the source. -/
theorem c6_tabular_loader :
    (∀ (df : DataFrame) (c : String),
      dnr_name_cols df = [] ∨ dnr_lat_cols df = [] ∨ dnr_lon_cols df = [] →
      parse_dnr_source df c = [])
    ∧ (∀ (aliases cols : List String) (row : List (String × Option PyVal)),
      firstCell row (aliases.filter (fun c => decide (c ∈ cols))) =
        (aliases.find? (fun c => decide (c ∈ cols) && (cellVal row c).isSome)).bind
          (cellVal row))
    ∧ parse_dnr_source tahquamenon_df "Parks & Nature" = [tahquamenon_record] := by
  refine ⟨?_, ?_, tahquamenon_parse⟩
  · intro df c h
    unfold parse_dnr_source
    split
    · rfl
    · have : ((dnr_name_cols df).isEmpty || (dnr_lat_cols df).isEmpty ||
          (dnr_lon_cols df).isEmpty) = true := by
        rcases h with h | h | h <;> simp [h]
      rw [if_pos this]
  · intro aliases cols row
    induction aliases with
    | nil => rfl
    | cons a rest ih =>
      by_cases hm : a ∈ cols
      · cases hv : cellVal row a with
        | none =>
          simp [firstCell, List.filter_cons, hm, List.findSome?_cons, hv,
            List.find?_cons, firstCell] at ih ⊢
          exact ih
        | some v =>
          simp [firstCell, List.filter_cons, hm, List.findSome?_cons, hv,
            List.find?_cons]
      · simp [firstCell, List.filter_cons, hm, List.find?_cons] at ih ⊢
        exact ih

theorem c6_tabular_loader_witness :
    parse_dnr_source ⟨["FACILITY", "LONGITUDE"],
      [[("FACILITY", some (.str "X")), ("LONGITUDE", some (.num 1))]]⟩
      "Family Fun" = [] :=
  c6_tabular_loader.1 _ "Family Fun" (Or.inr (Or.inl (by decide)))

/-- The records built by the element parser always carry a classified
category, a non-empty name and the OpenStreetMap source label. -/
theorem parse_overpass_element_inv {fc : Option String} {el : OsmElement}
    {r : Attraction} (h : parse_overpass_element fc el = some r) :
    r.type ∈ categories_list ∧ r.name ≠ "" ∧ r.source = "OpenStreetMap" := by
  unfold parse_overpass_element at h
  dsimp only at h
  rcases hname : dget (el.tags.getD []) "name" with _ | n <;> simp only [hname] at h
  · cases h
  · by_cases hn : n = ""
    · rw [if_pos hn] at h; cases h
    · rw [if_neg hn] at h
      rcases hla : pyOrQ el.lat (el.center.bind OsmCenter.lat) with _ | lav <;>
        simp only [hla] at h
      · cases h
      · rcases hlo : pyOrQ el.lon (el.center.bind OsmCenter.lon) with _ | lov <;>
          simp only [hlo] at h
        · cases h
        · rcases hcat : detect_category (el.tags.getD []) with _ | cat <;>
            simp only [hcat] at h
          · cases h
          · by_cases hc : cat = ""
            · rw [if_pos hc] at h; cases h
            · rw [if_neg hc] at h
              by_cases hf : pyFalsyStr fc = false ∧ some cat ≠ fc
              · rw [if_pos hf] at h; cases h
              · rw [if_neg hf] at h
                cases h
                exact ⟨detect_category_mem hcat, hn, rfl⟩

/-- A tabular source whose name cell is a pure-whitespace string. -/
def empty_name_df : DataFrame :=
  ⟨["FACILITY", "LATITUDE", "LONGITUDE"],
    [[("FACILITY", some (.str "  ")), ("LATITUDE", some (.num 46)),
      ("LONGITUDE", some (.num (-85)))]]⟩

/-- C8 counterexample: the tabular loader accepts a whitespace name cell
(`pd.notna(" ")` holds and `str.strip` empties it), so the pipeline stores a
record whose name is the empty string, violating the non-empty-name clause
of the claim. -/
theorem c8_record_invariants_counterexample :
    (parse_dnr_source empty_name_df "Parks & Nature").map Attraction.name = [""]
    ∧ "Parks & Nature" ∈ categories_list := ⟨rfl, by decide⟩

/-- C8 (amended): every record the element parser emits has a category from
the fixed enumeration, a non-empty name, and the OpenStreetMap provenance
label; every record the tabular loader emits carries the configured
category and the DNR provenance label (its name, however, may be empty); the
categories configured for the DNR sources all belong to the enumeration. -/
theorem c8_record_invariants :
    (∀ (data : Option OverpassData) (fc : Option String) (r : Attraction),
      r ∈ parse_overpass_elements data fc →
      r.type ∈ categories_list ∧ r.name ≠ "" ∧ r.source = "OpenStreetMap")
    ∧ (∀ (df : DataFrame) (c : String) (r : Attraction),
      r ∈ parse_dnr_source df c → r.type = c ∧ r.source = "Michigan DNR")
    ∧ (∀ s ∈ DNR_SOURCES, s.2.2 ∈ categories_list) := by
  refine ⟨?_, ?_, by decide⟩
  · intro data fc r hr
    cases data with
    | none => cases hr
    | some d =>
      cases hd : d.elements with
      | none => rw [parse_overpass_elements, hd] at hr; cases hr
      | some els =>
        rw [parse_overpass_elements, hd] at hr
        obtain ⟨el, _, hel⟩ := List.mem_filterMap.mp hr
        exact parse_overpass_element_inv hel
  · intro df c r hr
    unfold parse_dnr_source at hr
    split at hr
    · cases hr
    · split at hr
      · cases hr
      · obtain ⟨row, _, hrow⟩ := List.mem_filterMap.mp hr
        obtain ⟨geo, _, hgeo⟩ := Option.map_eq_some'.mp hrow
        rw [← hgeo]
        exact ⟨rfl, rfl⟩

theorem c8_record_invariants_witness :
    tahquamenon_record.type = "Parks & Nature"
    ∧ tahquamenon_record.source = "Michigan DNR" :=
  c8_record_invariants.2.1 tahquamenon_df "Parks & Nature" tahquamenon_record
    (tahquamenon_parse ▸ List.mem_singleton.mpr rfl)

/-! ## Persistence and deduplication (`load_existing_ids`, `save_combined`,
and the dedup loop of `main`) -/

/-- The persisted JSON store: absent file, unparsable file, or a parsed list
of records. -/
inductive Store where
  | missing
  | corrupt
  | good (items : List Attraction)
deriving DecidableEq

/-- `load_existing_ids` from `fetch_data.py`: the ids of the stored items
that carry one; an absent or unparsable store yields the empty set. -/
def load_existing_ids : Store → List String
  | .missing => []
  | .corrupt => []
  | .good items => items.filterMap (fun a => a.id)

/-- The record list a store holds (empty for an absent/unparsable store). -/
def stored_items : Store → List Attraction
  | .good items => items
  | _ => []

/-- `save_combined` from `fetch_data.py`: re-read the store (tolerantly),
append the new items and write the merged list back; returns the merged
list and the written store. -/
def save_combined (new_items : List Attraction) (store : Store) :
    List Attraction × Store :=
  let existing :=
    match store with
    | .good items => items
    | _ => []
  (existing ++ new_items, .good (existing ++ new_items))

/-- The dedup loop of `main`: skip a candidate whose identity is already
persisted or already seen in this batch, otherwise assign the identity and
keep the record. -/
def dedup_go (md5 : String → String) (existing seen : List String) :
    List Attraction → List Attraction
  | [] => []
  | a :: rest =>
    let i := make_unique_id md5 a
    if i ∈ existing ∨ i ∈ seen then dedup_go md5 existing seen rest
    else { a with id := some i } :: dedup_go md5 existing (i :: seen) rest

/-- The dedup loop started with an empty `seen` set, as in `main`. -/
def dedup_new_items (md5 : String → String) (existing : List String)
    (batch : List Attraction) : List Attraction :=
  dedup_go md5 existing [] batch

theorem dedup_go_ids_cover (md5 : String → String) :
    ∀ (l : List Attraction) (existing seen : List String), ∀ a ∈ l,
      make_unique_id md5 a ∈ existing ∨ make_unique_id md5 a ∈ seen ∨
        make_unique_id md5 a ∈ (dedup_go md5 existing seen l).filterMap (fun r => r.id) := by
  intro l
  induction l with
  | nil => intro existing seen a ha; cases ha
  | cons b rest ih =>
    intro existing seen a ha
    unfold dedup_go
    rcases List.mem_cons.mp ha with rfl | ha
    · by_cases hm : make_unique_id md5 a ∈ existing ∨ make_unique_id md5 a ∈ seen
      · rcases hm with hm | hm
        · exact Or.inl hm
        · exact Or.inr (Or.inl hm)
      · rw [if_neg hm]
        refine Or.inr (Or.inr (List.mem_filterMap.mpr ?_))
        exact ⟨{ a with id := some (make_unique_id md5 a) }, List.mem_cons_self _ _, rfl⟩
    · by_cases hm : make_unique_id md5 b ∈ existing ∨ make_unique_id md5 b ∈ seen
      · rw [if_pos hm]
        exact ih existing seen a ha
      · rw [if_neg hm]
        rcases ih existing (make_unique_id md5 b :: seen) a ha with h | h | h
        · exact Or.inl h
        · rcases List.mem_cons.mp h with h | h
          · refine Or.inr (Or.inr (List.mem_filterMap.mpr ?_))
            exact ⟨{ b with id := some (make_unique_id md5 b) },
              List.mem_cons_self _ _, by simp [h]⟩
          · exact Or.inr (Or.inl h)
        · refine Or.inr (Or.inr (List.mem_filterMap.mpr ?_))
          obtain ⟨r, hr, hfr⟩ := List.mem_filterMap.mp h
          exact ⟨r, List.mem_cons_of_mem _ hr, hfr⟩

theorem dedup_go_ids_fresh (md5 : String → String) :
    ∀ (l : List Attraction) (existing seen : List String),
      ∀ i ∈ (dedup_go md5 existing seen l).filterMap (fun r => r.id),
        i ∉ existing ∧ i ∉ seen := by
  intro l
  induction l with
  | nil => intro existing seen i hi; cases hi
  | cons b rest ih =>
    intro existing seen i hi
    unfold dedup_go at hi
    by_cases hm : make_unique_id md5 b ∈ existing ∨ make_unique_id md5 b ∈ seen
    · rw [if_pos hm] at hi
      exact ih existing seen i hi
    · rw [if_neg hm] at hi
      simp only [List.filterMap_cons] at hi
      rcases List.mem_cons.mp hi with rfl | hi
      · exact ⟨fun h => hm (Or.inl h), fun h => hm (Or.inr h)⟩
      · have := ih existing (make_unique_id md5 b :: seen) i hi
        exact ⟨this.1, fun h => this.2 (List.mem_cons_of_mem _ h)⟩

theorem dedup_go_ids_nodup (md5 : String → String) :
    ∀ (l : List Attraction) (existing seen : List String),
      ((dedup_go md5 existing seen l).filterMap (fun r => r.id)).Nodup := by
  intro l
  induction l with
  | nil => intro existing seen; exact List.nodup_nil
  | cons b rest ih =>
    intro existing seen
    unfold dedup_go
    by_cases hm : make_unique_id md5 b ∈ existing ∨ make_unique_id md5 b ∈ seen
    · rw [if_pos hm]; exact ih existing seen
    · rw [if_neg hm]
      simp only [List.filterMap_cons]
      refine List.Nodup.cons ?_ (ih existing (make_unique_id md5 b :: seen))
      intro hmem
      exact (dedup_go_ids_fresh md5 rest existing (make_unique_id md5 b :: seen)
        _ hmem).2 (List.mem_cons_self _ _)

theorem dedup_go_all_seen (md5 : String → String) :
    ∀ (l : List Attraction) (existing seen : List String),
      (∀ a ∈ l, make_unique_id md5 a ∈ existing ∨ make_unique_id md5 a ∈ seen) →
      dedup_go md5 existing seen l = [] := by
  intro l
  induction l with
  | nil => intro existing seen _; rfl
  | cons b rest ih =>
    intro existing seen h
    unfold dedup_go
    rw [if_pos (h b (List.mem_cons_self b rest))]
    exact ih existing seen (fun a ha => h a (List.mem_cons_of_mem b ha))

theorem load_eq_stored_ids (store : Store) :
    load_existing_ids store = (stored_items store).filterMap (fun a => a.id) := by
  cases store <;> rfl

theorem save_combined_spec (new_items : List Attraction) (store : Store) :
    (save_combined new_items store).1 = stored_items store ++ new_items
    ∧ (save_combined new_items store).2 =
        Store.good (stored_items store ++ new_items) := by
  cases store <;> exact ⟨rfl, rfl⟩

/-- C7: an absent or unparsable store loads as the empty identity set, and
persisting appends the surviving batch to whatever the store held (never
replacing it), returning and writing the merged collection. -/
theorem c7_store_tolerance :
    load_existing_ids Store.missing = []
    ∧ load_existing_ids Store.corrupt = []
    ∧ (∀ (new_items : List Attraction) (store : Store),
        (save_combined new_items store).1 = stored_items store ++ new_items
        ∧ (save_combined new_items store).2 =
            Store.good (stored_items store ++ new_items))
    ∧ (∀ store : Store,
        load_existing_ids store = (stored_items store).filterMap (fun a => a.id)) :=
  ⟨rfl, rfl, save_combined_spec, load_eq_stored_ids⟩

/-- C2: the dedup loop discards every candidate whose identity is persisted
or already produced in the same batch (the surviving identities are fresh
and duplicate-free), and after persisting the survivors a second run over
the identical batch keeps nothing. -/
theorem c2_dedup_idempotent (md5 : String → String) (store : Store)
    (batch : List Attraction) :
    (∀ i ∈ (dedup_new_items md5 (load_existing_ids store) batch).filterMap
        (fun r => r.id), i ∉ load_existing_ids store)
    ∧ ((dedup_new_items md5 (load_existing_ids store) batch).filterMap
        (fun r => r.id)).Nodup
    ∧ dedup_new_items md5
        (load_existing_ids
          (save_combined (dedup_new_items md5 (load_existing_ids store) batch)
            store).2)
        batch = [] := by
  refine ⟨fun i hi => (dedup_go_ids_fresh md5 batch _ [] i hi).1,
    dedup_go_ids_nodup md5 batch _ [], ?_⟩
  apply dedup_go_all_seen
  intro a ha
  left
  rw [(save_combined_spec _ store).2, load_existing_ids, List.filterMap_append,
    ← load_eq_stored_ids]
  rcases dedup_go_ids_cover md5 batch (load_existing_ids store) [] a ha with h | h | h
  · exact List.mem_append.mpr (Or.inl h)
  · cases h
  · exact List.mem_append.mpr (Or.inr h)

/-! ## The OSM stage of `main` (test-mode selection) -/

/-- The OSM-fetch stage of `main`: `test_mode` holds exactly when the loaded
identity set is empty and more than one bounding box was selected; with
several boxes the chunked fetcher runs (truncating to the first chunk in
test mode), with a single box one direct fetch runs.  An empty selection
cannot reach this stage (the CLI layer rejects it) and is modelled as a
no-op. -/
def run_osm_fetch (oracle : String → ℕ → Option OverpassData)
    (category : Option String) (existing_ids : List String)
    (bboxes : List BoundingBox) : FetchRun :=
  let test_mode := existing_ids.isEmpty && decide (bboxes.length > 1)
  if bboxes.length > 1 then
    fetch_overpass_for_bbox_list oracle bboxes category test_mode
  else
    match bboxes with
    | [] => ⟨[], 0⟩
    | b :: _ =>
      let q := build_overpass_query b.to_overpass category 30
      match (fetch_json_overpass (oracle q) 3).result with
      | some d => ⟨parse_overpass_elements (some d) category, 1⟩
      | none => ⟨[], 1⟩

/-- C9: with an empty loaded identity set and more than one selected box the
run enters test mode and fetches only the first box of the partition list;
with a non-empty identity set it fetches all of them. -/
theorem c9_test_mode (oracle : String → ℕ → Option OverpassData)
    (category : Option String) (bboxes : List BoundingBox)
    (h : 1 < bboxes.length) :
    run_osm_fetch oracle category [] bboxes =
      fetch_chunks oracle category (bboxes.take 1)
    ∧ (run_osm_fetch oracle category [] bboxes).processed = 1
    ∧ ∀ ids : List String, ids ≠ [] →
        run_osm_fetch oracle category ids bboxes = fetch_chunks oracle category bboxes
        ∧ (run_osm_fetch oracle category ids bboxes).processed = bboxes.length := by
  have h1 : run_osm_fetch oracle category [] bboxes =
      fetch_chunks oracle category (bboxes.take 1) := by
    unfold run_osm_fetch
    rw [if_pos h]
    unfold fetch_overpass_for_bbox_list
    simp [h]
  refine ⟨h1, ?_, ?_⟩
  · rw [h1, fetch_chunks_processed]
    rw [List.length_take]
    omega
  · intro ids hids
    have h2 : run_osm_fetch oracle category ids bboxes =
        fetch_chunks oracle category bboxes := by
      unfold run_osm_fetch
      rw [if_pos h]
      unfold fetch_overpass_for_bbox_list
      have he : ids.isEmpty = false := by
        cases ids with
        | nil => exact absurd rfl hids
        | cons x xs => rfl
      simp [he]
    exact ⟨h2, by rw [h2, fetch_chunks_processed]⟩

theorem c9_test_mode_witness :
    1 < michigan_chunks.length
    ∧ (run_osm_fetch oracle_always_fails none [] michigan_chunks).processed = 1
    ∧ (run_osm_fetch oracle_always_fails none ["a1b2"] michigan_chunks).processed =
        michigan_chunks.length :=
  ⟨by rw [michigan_chunks, grid_chunks_eq]; decide,
    (c9_test_mode oracle_always_fails none michigan_chunks
      (by rw [michigan_chunks, grid_chunks_eq]; decide)).2.1,
    ((c9_test_mode oracle_always_fails none michigan_chunks
      (by rw [michigan_chunks, grid_chunks_eq]; decide)).2.2 ["a1b2"]
      (by decide)).2⟩

theorem c2_dedup_idempotent_witness :
    dedup_new_items (fun s => s)
      (load_existing_ids
        (save_combined
          (dedup_new_items (fun s => s) (load_existing_ids Store.missing)
            [⟨"Alpena Light", 1, 2, "Lighthouses", "OpenStreetMap", [], none⟩])
          Store.missing).2)
      [⟨"Alpena Light", 1, 2, "Lighthouses", "OpenStreetMap", [], none⟩] = [] :=
  (c2_dedup_idempotent (fun s => s) Store.missing
    [⟨"Alpena Light", 1, 2, "Lighthouses", "OpenStreetMap", [], none⟩]).2.2

theorem c5_retrying_fetcher_witness :
    (fetch_overpass_for_bbox_list oracle_always_fails
      [⟨1, 2, 3, 4⟩, ⟨5, 6, 7, 8⟩] none false).results = []
    ∧ (fetch_overpass_for_bbox_list oracle_always_fails
      [⟨1, 2, 3, 4⟩, ⟨5, 6, 7, 8⟩] none false).processed = 2 :=
  ⟨(c5_retrying_fetcher.2.2.2 [⟨1, 2, 3, 4⟩, ⟨5, 6, 7, 8⟩] none).1,
    (c5_retrying_fetcher.2.2.2 [⟨1, 2, 3, 4⟩, ⟨5, 6, 7, 8⟩] none).2⟩

theorem c7_store_tolerance_witness :
    (save_combined [⟨"Alpena Light", 1, 2, "Lighthouses", "OpenStreetMap", [], none⟩]
        Store.corrupt).1 =
      stored_items Store.corrupt ++
        [⟨"Alpena Light", 1, 2, "Lighthouses", "OpenStreetMap", [], none⟩] :=
  (c7_store_tolerance.2.2.1
    [⟨"Alpena Light", 1, 2, "Lighthouses", "OpenStreetMap", [], none⟩]
    Store.corrupt).1
